import Mathlib

/-!
Shallow embedding of the frame-capture-and-encode pipeline of
`puppeteer-lottie` (the exported async function `renderLottie` in the main
module) together with proofs about the properties stated in the
specification.

Modelling conventions:
 - JavaScript numbers are modelled as exact rationals extended with the
   special values `Infinity`, `-Infinity` and `NaN` (`JSNum`).  Double
   rounding is not modelled; every theorem below is either about a family of
   inputs on which IEEE double arithmetic is exact (ratios such as
   `fps / fps = 1`, integral values, halves), or about the branch structure
   of the code, which does not depend on rounding.
 - JavaScript values read from the animation JSON are modelled by `JSVal`
   (`undefined`, a number, or a string); `ToNumber` is modelled on the
   values that occur there: numbers are themselves, `undefined` is `NaN`,
   integer-literal strings are their value, and other strings are `NaN`.
 - Promise settlement of the ffmpeg pipeline is modelled as a first-settle
   fold over the observable events (stdin `error` events and the process
   `exit` event).
 - Effects on shared resources (page, browser, encoder subprocess) are
   modelled as explicit action lists emitted by the success path and by the
   `catch` block.
-/

namespace PuppeteerLottie

/-- A JavaScript double, modelled as an exact rational or one of the
special values `Infinity`, `-Infinity`, `NaN`. -/
inductive JSNum where
  | num (q : ℚ)
  | posInf
  | negInf
  | nan
deriving DecidableEq

namespace JSNum

/-- JavaScript multiplication (`a * b`) on the extended number line:
`NaN` is absorbing, `Infinity * 0 = NaN`, signs multiply. -/
def mul : JSNum → JSNum → JSNum
  | nan, _ => nan
  | _, nan => nan
  | num a, num b => num (a * b)
  | num a, posInf => if a = 0 then nan else if 0 < a then posInf else negInf
  | num a, negInf => if a = 0 then nan else if 0 < a then negInf else posInf
  | posInf, num b => if b = 0 then nan else if 0 < b then posInf else negInf
  | negInf, num b => if b = 0 then nan else if 0 < b then negInf else posInf
  | posInf, posInf => posInf
  | posInf, negInf => negInf
  | negInf, posInf => negInf
  | negInf, negInf => posInf

/-- JavaScript subtraction (`a - b`): `NaN` is absorbing,
`Infinity - Infinity = NaN`. -/
def sub : JSNum → JSNum → JSNum
  | nan, _ => nan
  | _, nan => nan
  | num a, num b => num (a - b)
  | num _, posInf => negInf
  | num _, negInf => posInf
  | posInf, num _ => posInf
  | negInf, num _ => negInf
  | posInf, posInf => nan
  | posInf, negInf => posInf
  | negInf, posInf => negInf
  | negInf, negInf => nan

/-- JavaScript division (`a / b`): division of a nonzero finite number by
zero yields a signed infinity, `0 / 0 = NaN`, a finite number divided by an
infinity yields 0 (signed zero is collapsed to 0). -/
def div : JSNum → JSNum → JSNum
  | nan, _ => nan
  | _, nan => nan
  | num a, num b =>
      if b = 0 then (if a = 0 then nan else if 0 < a then posInf else negInf)
      else num (a / b)
  | num _, posInf => num 0
  | num _, negInf => num 0
  | posInf, num b => if 0 ≤ b then posInf else negInf
  | negInf, num b => if 0 ≤ b then negInf else posInf
  | posInf, posInf => nan
  | posInf, negInf => nan
  | negInf, posInf => nan
  | negInf, negInf => nan

/-- `Math.round`: round half toward positive infinity on finite values,
the special values pass through. -/
def round : JSNum → JSNum
  | num q => num ((⌊q + 1 / 2⌋ : ℤ) : ℚ)
  | x => x

/-- Truncation toward zero of a rational, as used by the JavaScript
remainder operator and by `ToInt32`. -/
def truncQ (q : ℚ) : ℤ := if 0 ≤ q then ⌊q⌋ else ⌈q⌉

/-- The test `a % b === 0` on JavaScript numbers: the remainder of a finite
`a` by a finite nonzero `b` is `a - b * trunc (a / b)`; a remainder by zero
or involving `NaN` is `NaN` (never `=== 0`); the remainder of a finite `a`
by an infinity is `a` itself. -/
def modEqZero : JSNum → JSNum → Bool
  | num a, num b => if b = 0 then false else decide (a - b * (truncQ (a / b) : ℚ) = 0)
  | num a, posInf => decide (a = 0)
  | num a, negInf => decide (a = 0)
  | _, _ => false

end JSNum

/-- A JavaScript value read from a field of the animation JSON. -/
inductive JSVal where
  | undef
  | num (q : ℚ)
  | str (s : String)
deriving DecidableEq

/-- `ToNumber` on the `JSVal` fragment: `undefined` converts to `NaN`,
numbers to themselves, integer-literal strings to their value, and any
other string to `NaN`. -/
def toNumber : JSVal → JSNum
  | .undef => .nan
  | .num q => .num q
  | .str s =>
      match s.toInt? with
      | some n => .num (n : ℚ)
      | none => .nan

/-- `ToInt32`, the semantics of the `~~` double bitwise-not coercion:
`NaN` and the infinities map to 0; a finite value is truncated toward zero
and wrapped into `[-2^31, 2^31)`. -/
def toInt32 (x : JSNum) : ℤ :=
  match x with
  | .num q =>
      let m := (JSNum.truncQ q) % 4294967296
      if 2147483648 ≤ m then m - 4294967296 else m
  | _ => 0

/-! ### Frame rate resampler

Embeds, from the source:
  `let targetFps = Math.floor(fps * fpsScale)`
  `if (targetFps < 20) { targetFps = fps }`
and
  `const deleteStep = Math.round(numFrames / (numFrames - numFrames * (targetFps / fps)))`
  `if (frame > 0 && frame % deleteStep === 0) continue`
-/

/-- `targetFps` as computed by the source: `Math.floor(fps * fpsScale)`,
replaced by the native `fps` when the floored value is below 20. -/
def computeTargetFps (fps : ℕ) (fpsScale : ℚ) : ℤ :=
  let t : ℤ := ⌊(fps : ℚ) * fpsScale⌋
  if t < 20 then (fps : ℤ) else t

/-- The frame-count parity fix applied to the frame count reported by the
host: `if (numFrames % 2 === 1 && numFrames > 1) --numFrames`. -/
def parityFix (n : ℕ) : ℕ :=
  if n % 2 = 1 ∧ 1 < n then n - 1 else n

/-- The frame-drop stride:
`Math.round(numFrames / (numFrames - numFrames * (targetFps / fps)))`,
computed in JavaScript number semantics (the denominator may be 0, making
the stride `Infinity` or `NaN`). -/
def deleteStep (numFrames : ℚ) (fps : ℚ) (targetFps : ℚ) : JSNum :=
  JSNum.round
    (JSNum.div (.num numFrames)
      (JSNum.sub (.num numFrames)
        (JSNum.mul (.num numFrames) (JSNum.div (.num targetFps) (.num fps)))))

/-- The drop rule of the capture loop:
`frame > 0 && frame % deleteStep === 0`. -/
def isDropped (frame : ℕ) (step : JSNum) : Bool :=
  decide (0 < frame) && JSNum.modEqZero (.num (frame : ℚ)) step

/-- The index range of the capture loop:
`for (let frame = firstFrame; frame < numFrames; ++frame)`. -/
def frameIndices (firstFrame numFrames : ℕ) : List ℕ :=
  (List.range numFrames).drop firstFrame

/-- The frames actually captured by the loop: dropped indices are skipped
(`continue`); in single-output mode the loop breaks after the first
captured frame. -/
def capturedFrames (firstFrame numFrames : ℕ) (step : JSNum)
    (isMultiFrame : Bool) : List ℕ :=
  let retained := (frameIndices firstFrame numFrames).filter
    (fun f => ! isDropped f step)
  if isMultiFrame then retained else retained.take 1

/-- The number of frames selected for capture after fps downsampling. -/
def retainedCount (firstFrame numFrames : ℕ) (step : JSNum) : ℕ :=
  (capturedFrames firstFrame numFrames step true).length

/-! ### Animation data and the pre-launch phase

Embeds the validation steps that run before `puppeteer.launch`:
extension dispatch, the `animationData` / `path` mutual-exclusion check,
and the `ow` validation of `fr`, `w`, `h` (with the destructuring defaults
`const { w = 640, h = 480 } = lottieData`).
-/

/-- The metadata fields of the loaded animation JSON that the pipeline
reads (the shape/keyframe payload is opaque to it). -/
structure LottieData where
  fr : JSVal
  nm : JSVal
  w : JSVal
  h : JSVal
deriving DecidableEq

/-- The distinct failure causes surfaced to the caller before and during a
render. -/
inductive RenderError where
  | unsupportedFormat
  | mutuallyExclusive
  | missingSource
  | invalidFr
  | invalidW
  | invalidH
  | hostError
  | captureError
  | encoderExit (status : ℕ)
deriving DecidableEq

/-- The errors thrown before any browser or subprocess exists
(configuration errors in the sense of the specification). -/
def RenderError.isConfig : RenderError → Bool
  | .unsupportedFormat => true
  | .mutuallyExclusive => true
  | .missingSource => true
  | _ => false

/-- The extension dispatch: only `gif`, `mp4`, `png`, `jpg`, `jpeg`
(lowercased) are accepted. -/
def supportedExt (ext : String) : Bool :=
  ext = "gif" || ext = "mp4" || ext = "png" || ext = "jpg" || ext = "jpeg"

/-- The `ow.number.integer.positive` validator applied to a raw JSON
value: it passes exactly on positive integral numbers. -/
def isPositiveInt : JSVal → Bool
  | .num q => decide (q.den = 1) && decide (0 < q)
  | _ => false

/-- A destructuring default: `undefined` is replaced by the default
number, any present value is kept. -/
def orDefault (v : JSVal) (d : ℚ) : JSVal :=
  match v with
  | .undef => .num d
  | v => v

/-- The options of a `renderLottie` invocation that the modelled phases
read: the lowercased extension of `opts.output`, the inline animation
data, and (when `opts.path` is given) the parsed content of that file. -/
structure RenderOpts where
  ext : String
  animationData : Option LottieData
  pathData : Option LottieData
deriving DecidableEq

/-- The validated metadata derived once from the animation data. -/
structure Metadata where
  fps : ℤ
  w : ℚ
  h : ℚ
deriving DecidableEq

/-- The extension check: `throw new Error(...)` when the output format is
not one of the four supported ones. -/
def extCheck (ext : String) : Except RenderError Unit :=
  if supportedExt ext then .ok () else .error .unsupportedFormat

/-- Resolution of the animation source, embedding the source order: the
`path` branch first throws on a simultaneous `animationData`, otherwise
reads the file; with no `path`, the inline data is used; with neither, a
configuration error is thrown. -/
def resolveSource (animationData : Option LottieData)
    (pathData : Option LottieData) : Except RenderError LottieData :=
  match pathData with
  | some d =>
      match animationData with
      | some _ => .error .mutuallyExclusive
      | none => .ok d
  | none =>
      match animationData with
      | some d => .ok d
      | none => .error .missingSource

/-- The numeric value held by a `JSVal` (0 for non-numbers; only applied
to values that passed `isPositiveInt`). -/
def jsValNum : JSVal → ℚ
  | .num q => q
  | _ => 0

/-- Metadata extraction and validation:
`const fps = ~~lottieData.fr`, `const { w = 640, h = 480 } = lottieData`,
then the three `ow(_, ow.number.integer.positive)` checks in source
order (`fr`, then `w`, then `h`). -/
def validateMetadata (d : LottieData) : Except RenderError Metadata :=
  let fps := toInt32 (toNumber d.fr)
  let wv := orDefault d.w 640
  let hv := orDefault d.h 480
  if fps ≤ 0 then .error .invalidFr
  else if ! isPositiveInt wv then .error .invalidW
  else if ! isPositiveInt hv then .error .invalidH
  else .ok { fps := fps, w := jsValNum wv, h := jsValNum hv }

/-- Everything `renderLottie` runs before `puppeteer.launch`: extension
dispatch, source resolution, metadata validation. -/
def preLaunch (o : RenderOpts) : Except RenderError Metadata := do
  extCheck o.ext
  let d ← resolveSource o.animationData o.pathData
  validateMetadata d

/-- Whether the invocation reaches `puppeteer.launch` (the browser host is
started exactly when no pre-launch step threw). -/
def browserStarted (o : RenderOpts) : Bool :=
  (preLaunch o).isOk

/-- Whether the invocation spawns the streaming encoder subprocess: the
`spawn` happens after the host is up, and only for mp4 output. -/
def encoderSpawned (o : RenderOpts) : Bool :=
  browserStarted o && decide (o.ext = "mp4")

/-! ### The mp4 scale filter

Embeds:
  `let scale = scale=WIDTH:-2`
  `if (width % 2 !== 0) {`
  `  if (height % 2 === 0) { scale = scale=-2:HEIGHT }`
  `  else { scale = scale=WIDTH+1:-2 }`
  `}`
-/

/-- The ffmpeg scale filter target: either an explicit width with
auto-derived even height (`scale=w:-2`) or an explicit height with
auto-derived even width (`scale=-2:h`). -/
inductive ScaleSpec where
  | widthAuto (w : ℕ)
  | autoHeight (h : ℕ)
deriving DecidableEq

/-- The explicit dimension requested of the encoder by a scale target. -/
def ScaleSpec.explicitDim : ScaleSpec → ℕ
  | .widthAuto w => w
  | .autoHeight h => h

/-- The scale target built for the ffmpeg invocation. -/
def mp4Scale (width height : ℕ) : ScaleSpec :=
  if width % 2 ≠ 0 then
    if height % 2 = 0 then .autoHeight height
    else .widthAuto (width + 1)
  else .widthAuto width

/-! ### The ffmpeg promise

Embeds the settlement behaviour of the promise `ffmpegP`:
  `stdin.on('error', err => { if (err.code !== 'EPIPE') return reject(err) })`
  `ffmpeg.on('exit', status => { if (status) reject(...) else resolve() })`
A promise settles at most once: the first effective `reject`/`resolve`
wins, later events are ignored.
-/

/-- An observable event of the encoder pipeline: a write error on the
subprocess input pipe (with its error code), or the subprocess exit (with
its status). -/
inductive PipeEvent where
  | stdinErr (code : String)
  | exit (status : ℕ)
deriving DecidableEq

/-- The settlement state of `ffmpegP`. -/
inductive PromiseState where
  | pending
  | resolved
  | rejected
deriving DecidableEq

/-- One event applied to the promise: an `EPIPE` stdin error is ignored, a
non-`EPIPE` stdin error rejects, exit status 0 resolves, a nonzero exit
status rejects; a settled promise absorbs everything. -/
def settleStep : PromiseState → PipeEvent → PromiseState
  | .pending, .stdinErr code => if code = "EPIPE" then .pending else .rejected
  | .pending, .exit status => if status = 0 then .resolved else .rejected
  | s, _ => s

/-- The settlement of `ffmpegP` after a sequence of observable events. -/
def pipelineOutcome (events : List PipeEvent) : PromiseState :=
  events.foldl settleStep .pending

/-! ### The mp4 success-path order of operations

Embeds the statement order of the mp4 path: the capture loop writes each
retained frame to the subprocess input pipe, then the root handle is
disposed, the host handle is closed, `ffmpegStdin.end()` is called and the
pipeline promise is awaited.
-/

/-- A step of the mp4 success path that touches the encoder pipe or the
host. -/
inductive Mp4Step where
  | writeFrame (frame : ℕ)
  | disposeRoot
  | closeHost
  | endStdin
  | awaitPipeline
deriving DecidableEq

/-- The ordered steps of the mp4 success path, given the list of retained
frame indices. -/
def mp4SuccessTrace (frames : List ℕ) : List Mp4Step :=
  frames.map Mp4Step.writeFrame ++
    [.disposeRoot, .closeHost, .endStdin, .awaitPipeline]

/-! ### Resource teardown

Embeds the success path
  `if (opts.browser) { await page.close() } else { await browser.close() }`
and the error path (the `catch` block)
  `console.error(...); await page.close(); throw err`.
-/

/-- An action on a shared resource taken while tearing down. -/
inductive TeardownAction where
  | closePage
  | closeBrowser
  | killEncoder
deriving DecidableEq

/-- The teardown actions of the success path: the page is closed when the
caller supplied a reusable browser, the whole browser otherwise. -/
def successTeardown (callerBrowser : Bool) : List TeardownAction :=
  if callerBrowser then [.closePage] else [.closeBrowser]

/-- The teardown actions of the `catch` block, for any error thrown after
the host started: it closes the page and re-throws, independently of
whether the caller supplied the browser and of whether an encoder
subprocess is in flight. -/
def errorTeardown (callerBrowser : Bool) (encoderInFlight : Bool) :
    List TeardownAction :=
  [.closePage]

/-! ### Renderer settings and the fpsScale option

Embeds:
  `const fpsScale = rendererSettings.fpsScale || 1`
  `rendererSettings.fpsScale = undefined`
and the later `JSON.stringify(rendererSettings)` injected into the page
(`JSON.stringify` drops properties whose value is `undefined`).
-/

/-- The caller's `rendererSettings` object: its `fpsScale` property
(`none` models `undefined`) and the remaining properties, opaque to the
pipeline. -/
structure RendererSettings where
  fpsScale : Option ℚ
  rest : List (String × ℚ)
deriving DecidableEq

/-- The fpsScale read: `rendererSettings.fpsScale || 1` (a missing or
falsy value, in particular 0, yields 1). -/
def readFpsScale (s : RendererSettings) : ℚ :=
  match s.fpsScale with
  | some q => if q = 0 then 1 else q
  | none => 1

/-- The in-place mutation `rendererSettings.fpsScale = undefined`,
returning the state of the caller's object after the call. -/
def clearFpsScale (s : RendererSettings) : RendererSettings :=
  { s with fpsScale := none }

/-- `JSON.stringify(rendererSettings)` as the list of serialized
key/value pairs: a property holding `undefined` is omitted. -/
def serializeSettings (s : RendererSettings) : List (String × ℚ) :=
  (match s.fpsScale with
   | some q => [("fpsScale", q)]
   | none => []) ++ s.rest

/-! ### The resolved value

Embeds the success return
  `return { numFrames, duration, name: nm }`
where `numFrames` is the parity-fixed frame count reported by the host and
`nm` is `~~lottieData.nm`.
-/

/-- The object `renderLottie` resolves with on success. -/
structure RenderResult where
  numFrames : ℕ
  duration : ℚ
  name : ℤ
deriving DecidableEq

/-- The resolved value, as a function of the animation data, the frame
count reported by the host runtime, and the reported duration. -/
def renderReturn (d : LottieData) (reportedNumFrames : ℕ)
    (reportedDuration : ℚ) : RenderResult :=
  { numFrames := parityFix reportedNumFrames
    duration := reportedDuration
    name := toInt32 (toNumber d.nm) }

/-! ## Shared lemmas -/

/-- Sequencing after a successful step runs the continuation. -/
theorem exceptBind_ok {ε α β : Type} (a : α) (f : α → Except ε β) :
    (Except.ok a >>= f) = f a := rfl

/-- Sequencing after a thrown error propagates the error. -/
theorem exceptBind_error {ε α β : Type} (e : ε) (f : α → Except ε β) :
    ((Except.error e : Except ε α) >>= f) = Except.error e := rfl

/-- When `targetFps` equals the native `fps`, the stride expression
evaluates to `Infinity` (or `NaN` for an empty animation): the denominator
`numFrames - numFrames * (fps / fps)` is exactly 0. -/
theorem deleteStep_self (numFrames fps : ℕ) (hfps : 0 < fps) :
    deleteStep (numFrames : ℚ) (fps : ℚ) (fps : ℚ)
      = if numFrames = 0 then JSNum.nan else JSNum.posInf := by
  have hq : (fps : ℚ) ≠ 0 := Nat.cast_ne_zero.mpr hfps.ne'
  have h1 : JSNum.div (.num (fps : ℚ)) (.num (fps : ℚ)) = .num 1 := by
    simp [JSNum.div, hq, div_self hq]
  have h2 : JSNum.mul (.num (numFrames : ℚ)) (.num 1) = .num (numFrames : ℚ) := by
    simp [JSNum.mul]
  have h3 : JSNum.sub (.num (numFrames : ℚ)) (.num (numFrames : ℚ)) = .num 0 := by
    simp [JSNum.sub]
  rw [deleteStep, h1, h2, h3]
  by_cases h0 : numFrames = 0
  · simp [JSNum.div, JSNum.round, h0]
  · have hpos : (0 : ℚ) < (numFrames : ℚ) := by
      exact_mod_cast Nat.pos_of_ne_zero h0
    simp [JSNum.div, JSNum.round, h0, hpos.ne', hpos]

/-- A stride of `Infinity` or `NaN` drops no frame. -/
theorem isDropped_special (f : ℕ) (step : JSNum)
    (hstep : step = JSNum.nan ∨ step = JSNum.posInf) :
    isDropped f step = false := by
  rcases hstep with h | h <;> subst h
  · simp [isDropped, JSNum.modEqZero]
  · rcases Nat.eq_zero_or_pos f with h0 | h0
    · simp [isDropped, h0]
    · have : ((f : ℚ) = 0) = False := by
        simp [Nat.cast_eq_zero]
        omega
      simp [isDropped, JSNum.modEqZero, this]

/-- When `targetFps` equals the native `fps`, the capture loop visits every
index of the range and captures all of them (multi-frame mode). -/
theorem capturedFrames_all (firstFrame numFrames fps : ℕ) (hfps : 0 < fps) :
    capturedFrames firstFrame numFrames
      (deleteStep (numFrames : ℚ) (fps : ℚ) (fps : ℚ)) true
      = frameIndices firstFrame numFrames := by
  rw [capturedFrames]
  simp only [if_pos rfl]
  apply List.filter_eq_self.mpr
  intro f _
  rw [isDropped_special]
  · rfl
  · rw [deleteStep_self _ _ hfps]
    by_cases h0 : numFrames = 0 <;> simp [h0]

/-- The full loop range has `numFrames - firstFrame` indices; with
`firstFrame = 0` it has exactly `numFrames`. -/
theorem frameIndices_length (firstFrame numFrames : ℕ) :
    (frameIndices firstFrame numFrames).length = numFrames - firstFrame := by
  simp [frameIndices]

/-! ## Claims -/

/-- C4: the pipeline's target fps is `floor(nativeFps * fpsScale)` unless
that value is below 20, in which case the native fps is used; hence the
target fps is below 20 only when the native fps itself is. -/
theorem c4_targetFps (fps : ℕ) (fpsScale : ℚ) :
    (20 ≤ ⌊(fps : ℚ) * fpsScale⌋ →
        computeTargetFps fps fpsScale = ⌊(fps : ℚ) * fpsScale⌋) ∧
    (⌊(fps : ℚ) * fpsScale⌋ < 20 →
        computeTargetFps fps fpsScale = (fps : ℤ)) ∧
    (computeTargetFps fps fpsScale < 20 → (fps : ℤ) < 20) := by
  unfold computeTargetFps
  refine ⟨fun h => ?_, fun h => ?_, fun h => ?_⟩
  · rw [if_neg (not_lt.mpr h)]
  · rw [if_pos h]
  · by_cases ht : ⌊(fps : ℚ) * fpsScale⌋ < 20
    · rwa [if_pos ht] at h
    · rw [if_neg ht] at h
      omega

/-- C4 witness: at native fps 30 and scale 1/2 the floored value 15 is
below 20, so the native fps 30 is kept, and the never-below-20 consequence
is discharged at the same input. -/
theorem c4_targetFps_witness :
    computeTargetFps 30 (1 / 2) = (30 : ℤ) ∧
    (computeTargetFps 30 (1 / 2) < 20 → (30 : ℤ) < 20) :=
  ⟨(c4_targetFps 30 (1 / 2)).2.1 (by norm_num),
   (c4_targetFps 30 (1 / 2)).2.2⟩

/-- C5: an odd reported frame count greater than 1 is decremented by one
before driving the capture loop; an even count or a count of 1 is used
unchanged. -/
theorem c5_parityFix (n : ℕ) :
    (n % 2 = 1 → 1 < n → parityFix n = n - 1) ∧
    (n % 2 = 0 → parityFix n = n) ∧
    (n = 1 → parityFix n = n) := by
  unfold parityFix
  refine ⟨fun h1 h2 => ?_, fun h => ?_, fun h => ?_⟩
  · rw [if_pos ⟨h1, h2⟩]
  · rw [if_neg]
    intro hc
    omega
  · rw [if_neg]
    intro hc
    omega

/-- C5 witness: at the reported counts 91, 90 and 1 the parity fix yields
90, 90 and 1. -/
theorem c5_parityFix_witness :
    parityFix 91 = 90 ∧ parityFix 90 = 90 ∧ parityFix 1 = 1 :=
  ⟨(c5_parityFix 91).1 (by decide) (by decide),
   (c5_parityFix 90).2.1 (by decide),
   (c5_parityFix 1).2.2 rfl⟩

/-- C6: the mp4 scale target keeps an even requested width as the pivot,
pivots on the height when the width is odd and the height even, pads the
width by one pixel when both are odd, and in every case the explicit
dimension handed to the encoder is even. -/
theorem c6_mp4Scale (width height : ℕ) :
    (width % 2 = 0 → mp4Scale width height = .widthAuto width) ∧
    (width % 2 = 1 → height % 2 = 0 → mp4Scale width height = .autoHeight height) ∧
    (width % 2 = 1 → height % 2 = 1 → mp4Scale width height = .widthAuto (width + 1)) ∧
    (mp4Scale width height).explicitDim % 2 = 0 := by
  refine ⟨fun hw => ?_, fun hw hh => ?_, fun hw hh => ?_, ?_⟩
  · simp [mp4Scale, hw]
  · simp [mp4Scale, hw, hh]
  · simp [mp4Scale, hw, hh]
  · rcases Nat.mod_two_eq_zero_or_one width with hw | hw
    · simp [mp4Scale, hw, ScaleSpec.explicitDim]
    · rcases Nat.mod_two_eq_zero_or_one height with hh | hh
      · simp [mp4Scale, hw, hh, ScaleSpec.explicitDim]
      · simp [mp4Scale, hw, hh, ScaleSpec.explicitDim]
        omega

/-- C6 witness: at 1820×275 the even width pivots; at 1821×276 the even
height pivots; at 1821×275 the width is padded to 1822. -/
theorem c6_mp4Scale_witness :
    mp4Scale 1820 275 = .widthAuto 1820 ∧
    mp4Scale 1821 276 = .autoHeight 276 ∧
    mp4Scale 1821 275 = .widthAuto 1822 :=
  ⟨(c6_mp4Scale 1820 275).1 (by decide),
   (c6_mp4Scale 1821 276).2.1 (by decide) (by decide),
   (c6_mp4Scale 1821 275).2.2.1 (by decide) (by decide)⟩

/-- C3: when the target fps equals the native fps, the stride expression
degenerates to `Infinity` (or `NaN` for an empty range) without crashing,
the drop rule fires on no index, and the multi-frame capture loop captures
every index from `firstFrame` to `numFrames - 1`. -/
theorem c3_no_dropping (firstFrame numFrames fps : ℕ) (targetFps : ℚ)
    (hfps : 0 < fps) (heq : targetFps = (fps : ℚ)) :
    capturedFrames firstFrame numFrames
      (deleteStep (numFrames : ℚ) (fps : ℚ) targetFps) true
      = frameIndices firstFrame numFrames := by
  subst heq
  exact capturedFrames_all firstFrame numFrames fps hfps

/-- C3 witness: natively 30 fps with target 30 fps, a 4-frame animation is
captured in full. -/
theorem c3_no_dropping_witness :
    capturedFrames 0 4 (deleteStep ((4 : ℕ) : ℚ) ((30 : ℕ) : ℚ) ((30 : ℕ) : ℚ)) true
      = frameIndices 0 4 :=
  c3_no_dropping 0 4 30 ((30 : ℕ) : ℚ) (by decide) rfl

/-- For a finite positive integral stride, the drop test on a loop index
is ordinary divisibility. -/
theorem modEqZero_natCast (f k : ℕ) (hk : 0 < k) :
    JSNum.modEqZero (.num (f : ℚ)) (.num (k : ℚ)) = decide (f % k = 0) := by
  have hkq : ((k : ℚ)) ≠ 0 := Nat.cast_ne_zero.mpr hk.ne'
  have htr : JSNum.truncQ ((f : ℚ) / (k : ℚ)) = ((f / k : ℕ) : ℤ) := by
    rw [JSNum.truncQ, if_pos (by positivity)]
    rw [Rat.floor_natCast_div_natCast]
    exact (Int.natCast_div f k).symm
  simp only [JSNum.modEqZero, if_neg hkq, htr]
  rw [decide_eq_decide, sub_eq_zero]
  constructor
  · intro h
    have h2 : f = k * (f / k) := by exact_mod_cast h
    exact Nat.dvd_iff_mod_eq_zero.mp ⟨f / k, h2⟩
  · intro h
    have h2 : f = k * (f / k) :=
      (Nat.mul_div_cancel' (Nat.dvd_iff_mod_eq_zero.mpr h)).symm
    exact_mod_cast h2

/-- The drop rule for a finite positive integral stride, in natural-number
terms. -/
theorem isDropped_natStep (f k : ℕ) (hk : 0 < k) :
    isDropped f (.num (k : ℚ)) = (decide (0 < f) && decide (f % k = 0)) := by
  rw [isDropped, modEqZero_natCast f k hk]

/-- As soon as the target fps really downsamples, the drop rule removes
indices, so the retained count falls below the loop bound.  This discharges
the arithmetic of the C1 counterexample. -/
theorem retainedCount_half :
    retainedCount 0 10 (JSNum.num ((2 : ℕ) : ℚ)) = 6 := by
  have h2 : ∀ f : ℕ, isDropped f (.num ((2 : ℕ) : ℚ))
      = (decide (0 < f) && decide (f % 2 = 0)) :=
    fun f => isDropped_natStep f 2 (by decide)
  simp only [retainedCount, capturedFrames, frameIndices, if_pos rfl, h2]
  decide

/-! C1 is corrected: the resolved object carries the parity-fixed frame
count reported by the host, not the retained count, and the `name` field is
the 32-bit integer coercion `~~lottieData.nm`, not the declared name as
given.  The theorem below proves the amended statement; the counterexample
exhibits a downsampling run on which the resolved count differs from the
retained count. -/

/-- C1 (amended): on success `renderLottie` resolves with the parity-fixed
reported frame count (which coincides with the retained count only when no
fps downsampling occurs, in particular when the target fps equals the
native fps), the reported duration, and the 32-bit integer coercion of the
animation's `nm` field. -/
theorem c1_resolved_value (d : LottieData) (reported : ℕ) (dur : ℚ)
    (fps : ℕ) (hfps : 0 < fps) :
    (renderReturn d reported dur).numFrames = parityFix reported ∧
    (renderReturn d reported dur).duration = dur ∧
    (renderReturn d reported dur).name = toInt32 (toNumber d.nm) ∧
    (renderReturn d reported dur).numFrames
      = retainedCount 0 (parityFix reported)
          (deleteStep ((parityFix reported : ℕ) : ℚ) ((fps : ℕ) : ℚ) ((fps : ℕ) : ℚ)) := by
  refine ⟨rfl, rfl, rfl, ?_⟩
  show parityFix reported = _
  rw [retainedCount, capturedFrames_all 0 (parityFix reported) fps hfps,
    frameIndices_length, Nat.sub_zero]

/-- The animation data of the C1 witness. -/
def c1Anim : LottieData :=
  { fr := .num 30, nm := .undef, w := .num 640, h := .num 480 }

/-- C1 witness: a 30 fps animation with 10 reported frames and no
downsampling resolves with count 10, which here equals the retained
count. -/
theorem c1_resolved_value_witness :
    (renderReturn c1Anim 10 5).numFrames = parityFix 10 ∧
    (renderReturn c1Anim 10 5).duration = 5 ∧
    (renderReturn c1Anim 10 5).name = toInt32 (toNumber c1Anim.nm) ∧
    (renderReturn c1Anim 10 5).numFrames
      = retainedCount 0 (parityFix 10)
          (deleteStep ((parityFix 10 : ℕ) : ℚ) ((30 : ℕ) : ℚ) ((30 : ℕ) : ℚ)) :=
  c1_resolved_value c1Anim 10 5 30 (by decide)

/-- The animation data of the C1 counterexample: native 48 fps. -/
def c1DownsampledAnim : LottieData :=
  { fr := .num 48, nm := .str "Comp 1", w := .num 640, h := .num 480 }

/-- C1 counterexample: with native 48 fps and fpsScale 1/2 the target fps
is 24 and the stride is 2, so of 10 reported frames only 6 are selected
for capture, yet the resolved object reports 10 — the resolved count is
not the retained frame count. -/
theorem c1_counterexample :
    computeTargetFps 48 (1 / 2) = 24 ∧
    (renderReturn c1DownsampledAnim 10 5).numFrames ≠
      retainedCount 0 (parityFix 10)
        (deleteStep ((parityFix 10 : ℕ) : ℚ) ((48 : ℕ) : ℚ) ((24 : ℤ) : ℚ)) := by
  constructor
  · unfold computeTargetFps
    norm_num
  · have hp : (parityFix 10 : ℕ) = 10 := by decide
    have hstep : deleteStep ((10 : ℕ) : ℚ) ((48 : ℕ) : ℚ) ((24 : ℤ) : ℚ)
        = JSNum.num ((2 : ℕ) : ℚ) := by
      rw [deleteStep]
      norm_num [JSNum.div, JSNum.mul, JSNum.sub, JSNum.round]
    rw [hp, hstep, retainedCount_half]
    decide

/-! C2 is corrected: the `catch` block closes only the page handle — it
does not signal an in-flight encoder subprocess and never closes the
browser process, even when the caller did not supply one.  The theorem
proves the amended statement; the counterexample shows the claimed
teardown actions missing in the worst configuration. -/

/-- C2 (amended): for every error raised after the browser host has
started, the teardown that runs before the error propagates closes only
the page handle; the in-flight encoder subprocess is not signaled and the
browser process is not closed on the error path, whatever the
configuration.  Only the success path distinguishes a caller-supplied
browser (page closed) from an owned one (whole browser closed). -/
theorem c2_error_teardown (callerBrowser encoderInFlight : Bool) :
    TeardownAction.closePage ∈ errorTeardown callerBrowser encoderInFlight ∧
    TeardownAction.killEncoder ∉ errorTeardown callerBrowser encoderInFlight ∧
    TeardownAction.closeBrowser ∉ errorTeardown callerBrowser encoderInFlight ∧
    successTeardown true = [TeardownAction.closePage] ∧
    successTeardown false = [TeardownAction.closeBrowser] := by
  refine ⟨?_, ?_, ?_, rfl, rfl⟩ <;> simp [errorTeardown]

/-- C2 counterexample: with no caller-supplied browser and an encoder
subprocess in flight, the error path neither signals the subprocess nor
closes the browser process. -/
theorem c2_counterexample :
    TeardownAction.killEncoder ∉ errorTeardown false true ∧
    TeardownAction.closeBrowser ∉ errorTeardown false true := by
  decide

/-! Helper lemmas for the ffmpeg pipeline (C7). -/

/-- A sequence made only of `EPIPE` stdin errors leaves the pipeline
promise pending. -/
theorem pipelineOutcome_pending (errs : List PipeEvent)
    (hep : ∀ c, PipeEvent.stdinErr c ∈ errs → c = "EPIPE")
    (hnx : ∀ s, PipeEvent.exit s ∉ errs) :
    pipelineOutcome errs = PromiseState.pending := by
  induction errs with
  | nil => rfl
  | cons e t ih =>
      cases e with
      | stdinErr c =>
          have hc : c = "EPIPE" := hep c (List.mem_cons_self _ _)
          have hstep : settleStep .pending (.stdinErr c) = .pending := by
            simp [settleStep, hc]
          simp only [pipelineOutcome, List.foldl_cons, hstep]
          exact ih (fun c2 hm => hep c2 (List.mem_cons_of_mem _ hm))
            (fun s hs => hnx s (List.mem_cons_of_mem _ hs))
      | exit s => exact absurd (List.mem_cons_self _ _) (hnx s)

/-- A single settle step can reject only on a non-EPIPE stdin error or a
nonzero exit status. -/
theorem settleStep_rejected_cause (st : PromiseState) (e : PipeEvent)
    (h : settleStep st e = .rejected) (hst : st ≠ .rejected) :
    (∃ c, e = PipeEvent.stdinErr c ∧ c ≠ "EPIPE") ∨
    (∃ s, e = PipeEvent.exit s ∧ s ≠ 0) := by
  cases st with
  | pending =>
      cases e with
      | stdinErr c =>
          by_cases hc : c = "EPIPE"
          · simp [settleStep, hc] at h
          · exact Or.inl ⟨c, rfl, hc⟩
      | exit s =>
          by_cases hs : s = 0
          · simp [settleStep, hs] at h
          · exact Or.inr ⟨s, rfl, hs⟩
  | resolved => simp [settleStep] at h
  | rejected => exact absurd rfl hst

/-- If folding the settle steps from an unsettled-or-resolved state ends
rejected, the event list holds a rejecting cause. -/
theorem foldl_rejected_cause (evs : List PipeEvent) :
    ∀ st, st ≠ PromiseState.rejected →
      evs.foldl settleStep st = PromiseState.rejected →
      (∃ c, PipeEvent.stdinErr c ∈ evs ∧ c ≠ "EPIPE") ∨
      (∃ s, PipeEvent.exit s ∈ evs ∧ s ≠ 0) := by
  induction evs with
  | nil => exact fun st hst h => absurd h hst
  | cons e t ih =>
      intro st hst h
      simp only [List.foldl_cons] at h
      by_cases h2 : settleStep st e = PromiseState.rejected
      · rcases settleStep_rejected_cause st e h2 hst with ⟨c, he, hc⟩ | ⟨s, he, hs⟩
        · exact Or.inl ⟨c, he ▸ List.mem_cons_self _ _, hc⟩
        · exact Or.inr ⟨s, he ▸ List.mem_cons_self _ _, hs⟩
      · rcases ih (settleStep st e) h2 h with ⟨c, hm, hc⟩ | ⟨s, hm, hs⟩
        · exact Or.inl ⟨c, List.mem_cons_of_mem _ hm, hc⟩
        · exact Or.inr ⟨s, List.mem_cons_of_mem _ hm, hs⟩

/-- C7: the mp4 pipeline closes the encoder's input pipe only after the
last retained frame was written (no write step occurs at or after the
`end` of stdin); after a run of EPIPE-only write errors the pipeline
resolves exactly when the subprocess exits with status zero; EPIPE write
errors alone never reject; and a rejection always stems from a non-EPIPE
write error or a nonzero exit status. -/
theorem c7_ffmpeg_pipeline (frames : List ℕ) (errs : List PipeEvent)
    (status : ℕ)
    (hep : ∀ c, PipeEvent.stdinErr c ∈ errs → c = "EPIPE")
    (hnx : ∀ s, PipeEvent.exit s ∉ errs) :
    ((mp4SuccessTrace frames).drop (frames.length + 2)
        = [Mp4Step.endStdin, Mp4Step.awaitPipeline]) ∧
    (∀ n, Mp4Step.writeFrame n ∉
        (mp4SuccessTrace frames).drop (frames.length + 2)) ∧
    (pipelineOutcome (errs ++ [PipeEvent.exit status])
        = if status = 0 then PromiseState.resolved else PromiseState.rejected) ∧
    pipelineOutcome errs ≠ PromiseState.rejected ∧
    (∀ evs, pipelineOutcome evs = PromiseState.rejected →
        (∃ c, PipeEvent.stdinErr c ∈ evs ∧ c ≠ "EPIPE") ∨
        (∃ s, PipeEvent.exit s ∈ evs ∧ s ≠ 0)) := by
  have hdrop : (mp4SuccessTrace frames).drop (frames.length + 2)
      = [Mp4Step.endStdin, Mp4Step.awaitPipeline] := by
    rw [mp4SuccessTrace,
      show frames.length = (frames.map Mp4Step.writeFrame).length by simp,
      List.drop_append]
    rfl
  have hpend := pipelineOutcome_pending errs hep hnx
  refine ⟨hdrop, ?_, ?_, ?_, ?_⟩
  · intro n
    rw [hdrop]
    simp
  · rw [pipelineOutcome, List.foldl_append]
    rw [show errs.foldl settleStep PromiseState.pending = PromiseState.pending
      from hpend]
    by_cases hs : status = 0 <;> simp [settleStep, hs]
  · rw [hpend]
    simp
  · exact fun evs h => foldl_rejected_cause evs .pending (by simp) h

/-- C7 witness: after two frame writes the pipe-close steps follow the
writes; one EPIPE write error followed by exit status 0 resolves; the
EPIPE error alone does not reject. -/
theorem c7_ffmpeg_pipeline_witness :
    pipelineOutcome ([PipeEvent.stdinErr "EPIPE"] ++ [PipeEvent.exit 0])
        = PromiseState.resolved ∧
    pipelineOutcome [PipeEvent.stdinErr "EPIPE"] ≠ PromiseState.rejected ∧
    (mp4SuccessTrace [7, 8]).drop 4 = [Mp4Step.endStdin, Mp4Step.awaitPipeline] := by
  have h := c7_ffmpeg_pipeline [7, 8] [PipeEvent.stdinErr "EPIPE"] 0
    (by intro c hc; simpa using hc) (by intro s hs; simp at hs)
  refine ⟨by simpa using h.2.2.1, h.2.2.2.1, by simpa using h.1⟩

/-- C8: supplying both or neither of the inline animation data and the
animation file path makes the invocation fail with a configuration error,
and the failure happens before any browser host or encoder subprocess is
started. -/
theorem c8_exactly_one_source (o : RenderOpts)
    (h : (o.animationData.isSome = true ∧ o.pathData.isSome = true) ∨
         (o.animationData = none ∧ o.pathData = none)) :
    ∃ e, preLaunch o = Except.error e ∧ e.isConfig = true ∧
      browserStarted o = false ∧ encoderSpawned o = false := by
  by_cases hext : supportedExt o.ext
  · rcases h with ⟨ha, hp⟩ | ⟨ha, hp⟩
    · rcases Option.isSome_iff_exists.mp ha with ⟨a, ha2⟩
      rcases Option.isSome_iff_exists.mp hp with ⟨p, hp2⟩
      have hpl : preLaunch o = Except.error RenderError.mutuallyExclusive := by
        simp [preLaunch, extCheck, hext, resolveSource, ha2, hp2,
          exceptBind_ok, exceptBind_error]
      exact ⟨_, hpl, rfl,
        by simp [browserStarted, hpl, Except.isOk, Except.toBool],
        by simp [encoderSpawned, browserStarted, hpl, Except.isOk, Except.toBool]⟩
    · have hpl : preLaunch o = Except.error RenderError.missingSource := by
        simp [preLaunch, extCheck, hext, resolveSource, ha, hp,
          exceptBind_ok, exceptBind_error]
      exact ⟨_, hpl, rfl,
        by simp [browserStarted, hpl, Except.isOk, Except.toBool],
        by simp [encoderSpawned, browserStarted, hpl, Except.isOk, Except.toBool]⟩
  · have hpl : preLaunch o = Except.error RenderError.unsupportedFormat := by
      simp [preLaunch, extCheck, hext, exceptBind_ok, exceptBind_error]
    exact ⟨_, hpl, rfl,
      by simp [browserStarted, hpl, Except.isOk, Except.toBool],
      by simp [encoderSpawned, browserStarted, hpl, Except.isOk, Except.toBool]⟩

/-- The animation data of the C8 witness. -/
def c8Anim : LottieData :=
  { fr := .num 30, nm := .undef, w := .num 100, h := .num 100 }

/-- A C8 witness invocation supplying both animation sources. -/
def c8BothOpts : RenderOpts :=
  { ext := "png", animationData := some c8Anim, pathData := some c8Anim }

/-- A C8 witness invocation supplying neither animation source. -/
def c8NeitherOpts : RenderOpts :=
  { ext := "png", animationData := none, pathData := none }

/-- C8 witness: concrete invocations supplying both sources and neither
source each fail with a configuration error before the host starts. -/
theorem c8_exactly_one_source_witness :
    (∃ e, preLaunch c8BothOpts = Except.error e ∧ e.isConfig = true ∧
        browserStarted c8BothOpts = false ∧ encoderSpawned c8BothOpts = false) ∧
    (∃ e, preLaunch c8NeitherOpts = Except.error e ∧ e.isConfig = true ∧
        browserStarted c8NeitherOpts = false ∧ encoderSpawned c8NeitherOpts = false) :=
  ⟨c8_exactly_one_source c8BothOpts (Or.inl ⟨rfl, rfl⟩),
   c8_exactly_one_source c8NeitherOpts (Or.inr ⟨rfl, rfl⟩)⟩

/-! C9 is corrected: a missing `fr` indeed fails fast (it coerces to 0),
and an invalid present `w` or `h` fails fast, but a missing `w` or `h`
does not fail — the destructuring defaults 640 and 480 are substituted and
validation passes.  The counterexample shows a missing width reaching the
browser launch; the theorem proves the amended statement. -/

/-- The animation data of the C9 counterexample: valid frame rate,
missing width. -/
def c9MissingWidthAnim : LottieData :=
  { fr := .num 30, nm := .undef, w := .undef, h := .num 480 }

/-- The options of the C9 counterexample. -/
def c9MissingWidthOpts : RenderOpts :=
  { ext := "png", animationData := some c9MissingWidthAnim, pathData := none }

/-- C9 counterexample: an animation whose width is missing does not fail
validation — the width defaults to 640 and the browser host is started. -/
theorem c9_counterexample :
    preLaunch c9MissingWidthOpts = Except.ok { fps := 30, w := 640, h := 480 } ∧
    browserStarted c9MissingWidthOpts = true := by
  have hv : validateMetadata c9MissingWidthAnim
      = Except.ok { fps := 30, w := 640, h := 480 } := by
    rw [validateMetadata]
    norm_num [c9MissingWidthAnim, toNumber, toInt32, JSNum.truncQ,
      orDefault, isPositiveInt, jsValNum, Rat.den_ofNat]
  have hpl : preLaunch c9MissingWidthOpts
      = Except.ok { fps := 30, w := 640, h := 480 } := by
    rw [show preLaunch c9MissingWidthOpts = validateMetadata c9MissingWidthAnim
      from rfl, hv]
  exact ⟨hpl, by simp [browserStarted, hpl, Except.isOk, Except.toBool]⟩

/-- C9 (amended): with a supported output and exactly one animation
source, a frame rate that is missing or coerces to a non-positive 32-bit
integer fails fast with a validation error before any host is started; a
width or height that is present but not a positive integral number fails
fast the same way; a missing width or height is replaced by the default
640 or 480 and passes; and valid metadata never triggers a validation
error. -/
theorem c9_metadata_validation (o : RenderOpts) (d : LottieData)
    (hext : supportedExt o.ext = true)
    (hdata : o.animationData = some d) (hpath : o.pathData = none) :
    (toInt32 (toNumber d.fr) ≤ 0 →
        preLaunch o = Except.error RenderError.invalidFr ∧
        browserStarted o = false) ∧
    (0 < toInt32 (toNumber d.fr) → isPositiveInt (orDefault d.w 640) = false →
        preLaunch o = Except.error RenderError.invalidW ∧
        browserStarted o = false) ∧
    (0 < toInt32 (toNumber d.fr) → isPositiveInt (orDefault d.w 640) = true →
        isPositiveInt (orDefault d.h 480) = false →
        preLaunch o = Except.error RenderError.invalidH ∧
        browserStarted o = false) ∧
    (0 < toInt32 (toNumber d.fr) → isPositiveInt (orDefault d.w 640) = true →
        isPositiveInt (orDefault d.h 480) = true →
        preLaunch o = Except.ok
            { fps := toInt32 (toNumber d.fr)
              w := jsValNum (orDefault d.w 640)
              h := jsValNum (orDefault d.h 480) } ∧
        browserStarted o = true) ∧
    (d.w = JSVal.undef → isPositiveInt (orDefault d.w 640) = true ∧
        jsValNum (orDefault d.w 640) = 640) ∧
    (d.h = JSVal.undef → isPositiveInt (orDefault d.h 480) = true ∧
        jsValNum (orDefault d.h 480) = 480) := by
  have hpl : preLaunch o = validateMetadata d := by
    simp [preLaunch, extCheck, hext, resolveSource, hdata, hpath,
      exceptBind_ok, exceptBind_error]
  refine ⟨fun h1 => ?_, fun h1 h2 => ?_, fun h1 h2 h3 => ?_,
    fun h1 h2 h3 => ?_, fun hw => ?_, fun hh => ?_⟩
  · have hv : validateMetadata d = Except.error RenderError.invalidFr := by
      rw [validateMetadata]
      simp [h1]
    exact ⟨hpl.trans hv,
      by simp [browserStarted, hpl, hv, Except.isOk, Except.toBool]⟩
  · have hv : validateMetadata d = Except.error RenderError.invalidW := by
      rw [validateMetadata]
      simp [not_le.mpr h1, h2]
    exact ⟨hpl.trans hv,
      by simp [browserStarted, hpl, hv, Except.isOk, Except.toBool]⟩
  · have hv : validateMetadata d = Except.error RenderError.invalidH := by
      rw [validateMetadata]
      simp [not_le.mpr h1, h2, h3]
    exact ⟨hpl.trans hv,
      by simp [browserStarted, hpl, hv, Except.isOk, Except.toBool]⟩
  · have hv : validateMetadata d = Except.ok
        { fps := toInt32 (toNumber d.fr)
          w := jsValNum (orDefault d.w 640)
          h := jsValNum (orDefault d.h 480) } := by
      rw [validateMetadata]
      simp [not_le.mpr h1, h2, h3]
    exact ⟨hpl.trans hv,
      by simp [browserStarted, hpl, hv, Except.isOk, Except.toBool]⟩
  · rw [hw]
    constructor
    · norm_num [orDefault, isPositiveInt, Rat.den_ofNat]
    · simp [orDefault, jsValNum]
  · rw [hh]
    constructor
    · norm_num [orDefault, isPositiveInt, Rat.den_ofNat]
    · simp [orDefault, jsValNum]

/-- The animation data of the C9 witness: valid frame rate, width present
but a string (fails the number check). -/
def c9BadWidthOpts : RenderOpts :=
  { ext := "png"
    animationData := some { fr := .num 30, nm := .undef, w := .str "640", h := .num 480 }
    pathData := none }

/-- C9 witness: a present but non-numeric width fails fast with the width
validation error, before the browser host is started. -/
theorem c9_metadata_validation_witness :
    preLaunch c9BadWidthOpts = Except.error RenderError.invalidW ∧
    browserStarted c9BadWidthOpts = false :=
  (c9_metadata_validation c9BadWidthOpts
      { fr := .num 30, nm := .undef, w := .str "640", h := .num 480 }
      rfl rfl rfl).2.1
    (by norm_num [toNumber, toInt32, JSNum.truncQ]) rfl

/-- C10: the fpsScale renderer setting is read for resampling, then the
caller's `rendererSettings` object is mutated in place: after the call its
`fpsScale` property holds `undefined`, and the settings serialized into
the page omit `fpsScale` entirely, so the animation runtime never receives
it. -/
theorem c10_fpsScale_mutation (s : RendererSettings)
    (hrest : "fpsScale" ∉ s.rest.map Prod.fst) :
    (clearFpsScale s).fpsScale = none ∧
    ("fpsScale" ∉ (serializeSettings (clearFpsScale s)).map Prod.fst) ∧
    (∀ q : ℚ, s.fpsScale = some q → q ≠ 0 → readFpsScale s = q) := by
  refine ⟨rfl, ?_, ?_⟩
  · simpa [serializeSettings, clearFpsScale] using hrest
  · intro q hq hq0
    simp [readFpsScale, hq, hq0]

/-- The renderer settings of the C10 witness. -/
def c10Settings : RendererSettings :=
  { fpsScale := some 2, rest := [("clearCanvas", 1)] }

/-- C10 witness: a settings object with fpsScale 2 and one other property
has its fpsScale read as 2, cleared in place, and omitted from the
serialized settings. -/
theorem c10_fpsScale_mutation_witness :
    (clearFpsScale c10Settings).fpsScale = none ∧
    ("fpsScale" ∉ (serializeSettings (clearFpsScale c10Settings)).map Prod.fst) ∧
    readFpsScale c10Settings = 2 := by
  have h := c10_fpsScale_mutation c10Settings (by simp [c10Settings])
  exact ⟨h.1, h.2.1, h.2.2 2 rfl (by norm_num)⟩

end PuppeteerLottie
